import Mathlib

/-
Verification development for CRXBot.py: a single-run batch bot that polls the
chemRxiv (figshare) listing API, deduplicates against a persisted identifier
log (id_log.txt), formats a tweet for each new preprint and posts it with a
thumbnail image, appending each processed identifier to the log.

The Python source is shallowly embedded below:
  - `prepare_tweet` embeds CRXBot.py lines 34-45 (pure string formatting and
    the 280-character check; the Python `False` sentinel becomes `none`).
  - `tweet_image` embeds CRXBot.py lines 18-32 as an explicit state
    transformer recording file-system effects (the temp.jpg file) and the
    call to twitter_api.update_with_media; an exception raised by the
    posting API is an `Except.error` carrying the state at the raise point.
  - `query_generator` embeds CRXBot.py lines 86-106 with explicit fuel
    (the Python code is an unbounded `while True` generator); `none` means
    the fuel was exhausted before the generator returned.
  - `processItem` embeds the body of the main loop (lines 220-281) for one
    summary, and `runLoop`/`run` embed the loop itself (lines 210-283),
    where the loop bound `numberPreprints = sys.getsizeof(doc)` is kept as
    an explicit parameter: it is the byte size of the generator object, not
    the number of preprints.
Network responses (detail fetch, image download status, posting outcome) are
supplied by an explicit environment `Env`.
-/

set_option maxRecDepth 8000

namespace CRXBot

/-- An author record as consumed by the main loop: only `full_name` is read
(CRXBot.py line 250). -/
structure Author where
  full_name : String
deriving DecidableEq

/-- The fields of a preprint detail record consumed by the main loop
(CRXBot.py lines 243-258): `title`, `authors`, `doi`, `thumb`. -/
structure Detail where
  title : String
  authors : List Author
  doi : String
  thumb : String
deriving DecidableEq

/-- CRXBot.py line 11: `doiRootURL = "https://doi.org/"`. -/
def doiRootURL : String := "https://doi.org/"

/-- Embedding of `prepare_tweet(title, author, preprintURL)` (CRXBot.py
lines 34-45). Builds
`f'{title} by {author} & co-workers' + "\n\n" + preprintURL` and returns it,
or returns the Python sentinel `False` — modelled as `none` — when
`len(tweetText) >= 280`. The `write_log` call on the too-long branch is an
observability side effect, dropped from this pure embedding. -/
def prepare_tweet (title author preprintURL : String) : Option String :=
  let tweetText := title ++ " by " ++ author ++ " & co-workers" ++ "\n\n" ++ preprintURL
  if 280 ≤ tweetText.length then
    none
  else
    some tweetText

/-- A page response of the figshare listing API as consumed by
`query_generator` (CRXBot.py lines 94-105): either a JSON list of items, or a
single non-list item. -/
inductive PageResp (α : Type) where
  | items (l : List α)
  | single (x : α)
deriving DecidableEq

/-- `chemRxivAPI.pagesize = 100` (CRXBot.py line 58). -/
def pagesize : Nat := 100

/-- Embedding of `chemRxivAPI.query_generator` (CRXBot.py lines 86-106).
`api offset` is the parsed JSON body the backing API returns for a request
with `params = {limit: pagesize, offset: offset}`; the embedding also
returns the list of offsets actually requested, so that "advances the offset
by the page size between requests" is observable. The Python loop is
`while True`; `fuel` bounds the number of iterations, and `none` in the
first component means the loop did not return within `fuel` requests.
The yielded items are accumulated into a list (the generator is consumed to
exhaustion). -/
def query_generator_aux (api : Nat → PageResp α) : Nat → Nat → Option (List α) × List Nat
  | 0, _ => (none, [])
  | fuel + 1, n =>
    match api n with
    | PageResp.single x => (some [x], [n])
    | PageResp.items l =>
      if l.length = 0 then
        (some [], [n])
      else
        let r := query_generator_aux api fuel (n + pagesize)
        ((r.1).map (fun rest => l ++ rest), n :: r.2)

/-- The generator run from its initial offset `n = 0` (CRXBot.py line 89). -/
def query_generator (api : Nat → PageResp α) (fuel : Nat) : Option (List α) × List Nat :=
  query_generator_aux api fuel 0

/-- The observable per-run state of the bot: the persisted id_log.txt
contents (as stripped lines), the three run counters (CRXBot.py lines
214-216), the trace of which preprint ids the Message Builder
(`prepare_tweet`) and the Post Publisher (`tweet_image`) were invoked for,
the messages passed to `twitter_api.update_with_media`, the ids for which
"New preprint found!" was logged, and whether temp.jpg currently exists. -/
structure State where
  idLogFile : List String
  preprints_added : Nat
  preprints_tweeted : Nat
  preprints_tweeted_FAILED : Nat
  builderCalls : List String
  publisherCalls : List String
  postCalls : List String
  announced : List String
  tempExists : Bool
deriving DecidableEq

/-- The external environment of one run: the summary ids yielded by
`api.all_preprints()` in order (already passed through `str(l['id'])`), the
detail endpoint `api.preprint(id)` (`none` models an HTTP error raised by
`raise_for_status`), the HTTP status code of `requests.get(thumbURL)`, and
whether `twitter_api.update_with_media(_, status=message)` succeeds
(`false` models a raised tweepy error). -/
structure Env where
  stream : List String
  details : String → Option Detail
  download : String → Nat
  postOK : String → Bool

/-- How a run (or run prefix) ends. `finished` is normal loop exit followed
by the final summary `write_log`; the other constructors are uncaught Python
exceptions: `StopIteration` from `next(doc)` on an exhausted generator,
an HTTPError from `api.preprint`, an IndexError from `authorData[-1]` on an
empty author list, and an error raised by `twitter_api.update_with_media`. -/
inductive Outcome where
  | finished
  | stopIteration
  | fetchError
  | authorsError
  | postError
deriving DecidableEq

/-- Embedding of `tweet_image(url, message)` (CRXBot.py lines 18-32).
Downloads `url`; on status 200 writes temp.jpg, calls
`twitter_api.update_with_media(filename, status=message)` and then
`os.remove(filename)`. A raised posting-API error propagates
(`Except.error`) with temp.jpg still on disk, because `os.remove` is only
reached after a successful post. On a non-200 status the function only
writes a log line: no file is created and no post is attempted. -/
def tweet_image (env : Env) (url message : String) (s : State) : Except State State :=
  if env.download url = 200 then
    let s1 : State := { s with tempExists := true }
    let s2 : State := { s1 with postCalls := s1.postCalls ++ [message] }
    if env.postOK message then
      Except.ok { s2 with tempExists := false }
    else
      Except.error s2
  else
    Except.ok s

/-- Embedding of the body of the main loop for one summary id (CRXBot.py
lines 224-281), after `l = next(doc)` has produced it. `idLog0` is the
in-memory `id_log` list loaded at startup (lines 194-203); the loop never
mutates it, so membership is always tested against this snapshot.
`Except.error` carries the state at the point an uncaught exception
propagates out of the loop body. Appending to id_log.txt (lines 277-278) and
`preprints_added += 1` happen in every branch of the new-item path that
completes without an exception. -/
def processItem (env : Env) (idLog0 : List String) (pid : String) (s : State) :
    Except (State × Outcome) State :=
  if pid ∈ idLog0 then
    Except.ok s
  else
    let s := { s with announced := s.announced ++ [pid] }
    match env.details pid with
    | none => Except.error (s, Outcome.fetchError)
    | some cp =>
      match cp.authors.getLast? with
      | none => Except.error (s, Outcome.authorsError)
      | some lastAuthorData =>
        let preprintURL := doiRootURL ++ cp.doi
        let s := { s with builderCalls := s.builderCalls ++ [pid] }
        match prepare_tweet cp.title lastAuthorData.full_name preprintURL with
        | none =>
          let s := { s with preprints_tweeted_FAILED := s.preprints_tweeted_FAILED + 1 }
          Except.ok { s with idLogFile := s.idLogFile ++ [pid],
                             preprints_added := s.preprints_added + 1 }
        | some tweetText =>
          let s := { s with publisherCalls := s.publisherCalls ++ [pid] }
          match tweet_image env cp.thumb tweetText s with
          | Except.error s1 => Except.error (s1, Outcome.postError)
          | Except.ok s1 =>
            let s2 : State := { s1 with preprints_tweeted := s1.preprints_tweeted + 1 }
            Except.ok { s2 with idLogFile := s2.idLogFile ++ [pid],
                                preprints_added := s2.preprints_added + 1 }

/-- Embedding of the main loop `for i in range(numberPreprints)` (CRXBot.py
lines 220-282). `fuel` is the remaining iteration count, `pos` the number of
`next(doc)` calls already made. When the stream is exhausted before the
range is, `next(doc)` raises `StopIteration`. -/
def runLoop (env : Env) (idLog0 : List String) : Nat → Nat → State → State × Outcome
  | 0, _, s => (s, Outcome.finished)
  | fuel + 1, pos, s =>
    match env.stream[pos]? with
    | none => (s, Outcome.stopIteration)
    | some pid =>
      match processItem env idLog0 pid s with
      | Except.error r => r
      | Except.ok s1 => runLoop env idLog0 fuel (pos + 1) s1

/-- The initial state of a run: the persisted log holds exactly the lines
that were loaded into `id_log`, counters are zero, no calls made, temp.jpg
absent. -/
def initState (idLog0 : List String) : State :=
  { idLogFile := idLog0
    preprints_added := 0
    preprints_tweeted := 0
    preprints_tweeted_FAILED := 0
    builderCalls := []
    publisherCalls := []
    postCalls := []
    announced := []
    tempExists := false }

/-- A full run of the bot section of CRXBot.py (lines 210-283):
`numberPreprints` iterations of the loop starting from the loaded log.
In the source, `numberPreprints = sys.getsizeof(doc)` — the byte size of the
generator object (at least 16 in CPython, typically 112 or 200), not the
number of preprints. -/
def run (env : Env) (idLog0 : List String) (numberPreprints : Nat) : State × Outcome :=
  runLoop env idLog0 numberPreprints 0 (initState idLog0)

/-- The tweet template of `prepare_tweet` (CRXBot.py line 37), named so the
contract can be stated against it:
`f'{title} by {author} & co-workers' + "\n\n" + preprintURL`. -/
def tweetMessage (title author preprintURL : String) : String :=
  title ++ " by " ++ author ++ " & co-workers" ++ "\n\n" ++ preprintURL

/-- A 259-character title. With a 1-character author and a 1-character URL
the template adds 19 fixed characters, giving a 280-character message. -/
def title259 : String := String.mk (List.replicate 259 'T')

/-- A 258-character title, giving a 279-character message as above. -/
def title258 : String := String.mk (List.replicate 258 'T')

/-- The end-to-end scenario detail record for id "3": title "Foo", a single
author "Bar", doi "10.1/abc", and a thumbnail URL. -/
def c1Detail : Detail :=
  { title := "Foo", authors := [{ full_name := "Bar" }], doi := "10.1/abc"
    thumb := "https://example.org/thumb.jpg" }

/-- The end-to-end scenario environment: summaries "1","2","3"; detail only
for "3"; every image download succeeds with status 200; the posting API
always succeeds. -/
def c1Env : Env :=
  { stream := ["1", "2", "3"]
    details := fun pid => if pid = "3" then some c1Detail else none
    download := fun _ => 200
    postOK := fun _ => true }

/-- The end-to-end scenario initial identifier log. -/
def c1Log : List String := ["1", "2"]

/-- The state the end-to-end scenario reaches after all three summaries have
been consumed: "1" and "2" skipped, "3" processed and posted. -/
def c1Final : State :=
  { idLogFile := ["1", "2", "3"]
    preprints_added := 1
    preprints_tweeted := 1
    preprints_tweeted_FAILED := 0
    builderCalls := ["3"]
    publisherCalls := ["3"]
    postCalls := ["Foo by Bar & co-workers\n\nhttps://doi.org/10.1/abc"]
    announced := ["3"]
    tempExists := false }

/-- A detail record for the idempotency witness scenario. -/
def c2Detail : Detail :=
  { title := "T2", authors := [{ full_name := "A2" }], doi := "10.2/x", thumb := "u2" }

/-- Idempotency witness environment: stream "1","2" with "1" already logged. -/
def c2Env : Env :=
  { stream := ["1", "2"]
    details := fun _ => some c2Detail
    download := fun _ => 200
    postOK := fun _ => true }

/-- A detail record for the append-once witness scenario. -/
def c3Detail : Detail :=
  { title := "T3", authors := [{ full_name := "A3" }], doi := "10.3/x", thumb := "u3" }

/-- Append-once witness environment. -/
def c3Env : Env :=
  { stream := []
    details := fun _ => some c3Detail
    download := fun _ => 200
    postOK := fun _ => true }

/-- The state `processItem c3Env [] "7"` produces from the initial state. -/
def c3Result : State :=
  { idLogFile := ["7"]
    preprints_added := 1
    preprints_tweeted := 1
    preprints_tweeted_FAILED := 0
    builderCalls := ["7"]
    publisherCalls := ["7"]
    postCalls := ["T3 by A3 & co-workers\n\nhttps://doi.org/10.3/x"]
    announced := ["7"]
    tempExists := false }

/-- A detail record for the publish-failure accounting scenarios. -/
def c4Detail : Detail :=
  { title := "T4", authors := [{ full_name := "A4" }], doi := "10.4/x", thumb := "u4" }

/-- Publish-failure scenario (a): one new preprint "9" whose thumbnail
download returns HTTP 404. -/
def c4aEnv : Env :=
  { stream := ["9"]
    details := fun _ => some c4Detail
    download := fun _ => 404
    postOK := fun _ => true }

/-- Publish-failure scenario (b): one new preprint "9" whose thumbnail
download succeeds but whose posting API call raises. -/
def c4bEnv : Env :=
  { stream := ["9"]
    details := fun _ => some c4Detail
    download := fun _ => 200
    postOK := fun _ => false }

/-- Temporary-file scenario: download succeeds (200), posting API raises. -/
def c5Env : Env :=
  { stream := [], details := fun _ => none, download := fun _ => 200, postOK := fun _ => false }

/-- Temporary-file scenario: download succeeds and posting succeeds. -/
def c5okEnv : Env :=
  { stream := [], details := fun _ => none, download := fun _ => 200, postOK := fun _ => true }

/-- Temporary-file scenario: download fails with HTTP 404. -/
def c5failEnv : Env :=
  { stream := [], details := fun _ => none, download := fun _ => 404, postOK := fun _ => true }

/-- Download-failure isolation witness environment: downloads return 500. -/
def c9Env : Env :=
  { stream := [], details := fun _ => none, download := fun _ => 500, postOK := fun _ => true }

/-- A page of `pagesize` distinct items starting at `k`. -/
def c7Page (k : Nat) : List Nat := (List.range pagesize).map (fun i => k + i)

/-- Pagination scenario: the listing API returns a full page at offset 0, a
full page at offset 100, and an empty page at every other offset. -/
def c7Api : Nat → PageResp Nat := fun n =>
  if n = 0 then PageResp.items (c7Page 0)
  else if n = pagesize then PageResp.items (c7Page pagesize)
  else PageResp.items []

/-- An environment is benign at `pid` when the detail fetch succeeds with a
non-empty author list, the resulting message fits in 280 characters, the
thumbnail download returns 200 and the posting API succeeds: one full
pass of the new-item path with no exception. -/
def benignFor (env : Env) (pid : String) : Prop :=
  ∃ d la msg,
    env.details pid = some d ∧
    d.authors.getLast? = some la ∧
    prepare_tweet d.title la.full_name (doiRootURL ++ d.doi) = some msg ∧
    env.download d.thumb = 200 ∧
    env.postOK msg = true

/-- An environment benign at every identifier. -/
def benign (env : Env) : Prop := ∀ pid, benignFor env pid

/-- A detail record for the duplicate-identifier scenario. -/
def c10Detail : Detail :=
  { title := "Foo", authors := [{ full_name := "Bar" }], doi := "10.10/x", thumb := "u10" }

/-- Duplicate-identifier scenario: the summary stream yields the same new
identifier "5" twice; all remote operations succeed. -/
def c10Env : Env :=
  { stream := ["5", "5"]
    details := fun _ => some c10Detail
    download := fun _ => 200
    postOK := fun _ => true }

/-- The state a `tweet_image` call leaves behind, whether it returns
normally or raises. -/
def resultState : Except State State → State
  | Except.ok s => s
  | Except.error s => s

/-- The state a loop-body execution leaves behind, whether it completes or
raises. -/
def processedState : Except (State × Outcome) State → State
  | Except.ok s => s
  | Except.error (s, _) => s

/-- Invariant behind idempotency: every identifier the Message Builder or
the Post Publisher has been invoked for is absent from the startup log. -/
def callsOutsideLog (idLog0 : List String) (s : State) : Prop :=
  (∀ y ∈ s.builderCalls, y ∉ idLog0) ∧ (∀ y ∈ s.publisherCalls, y ∉ idLog0)

/-- Counter-consistency invariant: discovered = posted + failed. -/
def countersOK (s : State) : Prop :=
  s.preprints_added = s.preprints_tweeted + s.preprints_tweeted_FAILED

/- Helper lemmas shared by the claim theorems. -/

lemma processItem_ok (env : Env) (idLog0 : List String) (pid : String) (s s' : State)
    (h : processItem env idLog0 pid s = Except.ok s') :
    (pid ∈ idLog0 ∧ s' = s) ∨
    (pid ∉ idLog0 ∧
      s'.idLogFile = s.idLogFile ++ [pid] ∧
      s'.preprints_added = s.preprints_added + 1 ∧
      s'.preprints_tweeted + s'.preprints_tweeted_FAILED
        = s.preprints_tweeted + s.preprints_tweeted_FAILED + 1 ∧
      s'.builderCalls = s.builderCalls ++ [pid] ∧
      (s'.publisherCalls = s.publisherCalls ∨ s'.publisherCalls = s.publisherCalls ++ [pid]) ∧
      s'.announced = s.announced ++ [pid]) := by
  by_cases hmem : pid ∈ idLog0
  · left
    refine ⟨hmem, ?_⟩
    simp [processItem, hmem] at h
    exact h.symm
  · right
    refine ⟨hmem, ?_⟩
    simp only [processItem, hmem, if_neg, ite_false] at h
    cases hd : env.details pid with
    | none =>
      simp only [hd] at h
      exact Except.noConfusion h
    | some cp =>
      simp only [hd] at h
      cases hla : cp.authors.getLast? with
      | none =>
        simp only [hla] at h
        exact Except.noConfusion h
      | some la =>
        simp only [hla] at h
        cases hpt : prepare_tweet cp.title la.full_name (doiRootURL ++ cp.doi) with
        | none =>
          simp only [hpt] at h
          cases h
          refine ⟨rfl, rfl, by dsimp only; omega, rfl, Or.inl rfl, rfl⟩
        | some tweetText =>
          simp only [hpt] at h
          by_cases hdl : env.download cp.thumb = 200
          · by_cases hpost : env.postOK tweetText
            · simp only [tweet_image, hdl, hpost, if_pos, ite_true, eq_self_iff_true,
                if_true] at h
              cases h
              refine ⟨rfl, rfl, by dsimp only; omega, rfl, Or.inr rfl, rfl⟩
            · simp [tweet_image, hdl, hpost] at h
          · simp only [tweet_image, hdl, if_neg, ite_false] at h
            cases h
            refine ⟨rfl, rfl, by dsimp only; omega, rfl, Or.inr rfl, rfl⟩

lemma processItem_error (env : Env) (idLog0 : List String) (pid : String) (s s' : State)
    (o : Outcome) (h : processItem env idLog0 pid s = Except.error (s', o)) :
    pid ∉ idLog0 ∧
    s'.idLogFile = s.idLogFile ∧
    s'.preprints_added = s.preprints_added ∧
    s'.preprints_tweeted = s.preprints_tweeted ∧
    s'.preprints_tweeted_FAILED = s.preprints_tweeted_FAILED ∧
    (s'.builderCalls = s.builderCalls ∨ s'.builderCalls = s.builderCalls ++ [pid]) ∧
    (s'.publisherCalls = s.publisherCalls ∨ s'.publisherCalls = s.publisherCalls ++ [pid]) := by
  by_cases hmem : pid ∈ idLog0
  · simp [processItem, hmem] at h
  · refine ⟨hmem, ?_⟩
    simp only [processItem, hmem, if_neg, ite_false] at h
    cases hd : env.details pid with
    | none =>
      simp only [hd] at h
      cases h
      refine ⟨rfl, rfl, rfl, rfl, Or.inl rfl, Or.inl rfl⟩
    | some cp =>
      simp only [hd] at h
      cases hla : cp.authors.getLast? with
      | none =>
        simp only [hla] at h
        cases h
        refine ⟨rfl, rfl, rfl, rfl, Or.inl rfl, Or.inl rfl⟩
      | some la =>
        simp only [hla] at h
        cases hpt : prepare_tweet cp.title la.full_name (doiRootURL ++ cp.doi) with
        | none =>
          simp only [hpt] at h
          exact Except.noConfusion h
        | some tweetText =>
          simp only [hpt] at h
          by_cases hdl : env.download cp.thumb = 200
          · by_cases hpost : env.postOK tweetText
            · simp [tweet_image, hdl, hpost] at h
            · simp only [tweet_image, hdl, hpost, if_pos, ite_true, eq_self_iff_true,
                if_true, if_neg, ite_false, Bool.false_eq_true] at h
              cases h
              refine ⟨rfl, rfl, rfl, rfl, Or.inr rfl, Or.inr rfl⟩
          · simp only [tweet_image, hdl, if_neg, ite_false] at h
            exact Except.noConfusion h

/-- C6: `prepare_tweet(title, author, url)` returns exactly
`title ++ " by " ++ author ++ " & co-workers"` followed by a blank line and
the url whenever that string is 279 characters or shorter, and returns the
`TooLong` sentinel (`False` in the source, `none` here, not an exception)
otherwise; in particular a 280-character message is rejected and a
279-character one is accepted (witnessed by a 259- resp. 258-character
title with a 1-character author and a 1-character URL). -/
theorem c6_prepare_tweet_contract :
    (∀ title author preprintURL : String,
      prepare_tweet title author preprintURL =
        if (tweetMessage title author preprintURL).length ≤ 279 then
          some (tweetMessage title author preprintURL)
        else none) ∧
    ((tweetMessage title259 "A" "U").length = 280 ∧
      prepare_tweet title259 "A" "U" = none) ∧
    ((tweetMessage title258 "A" "U").length = 279 ∧
      prepare_tweet title258 "A" "U" = some (tweetMessage title258 "A" "U")) := by
  refine ⟨fun title author preprintURL => ?_, ⟨by decide, by decide⟩, ⟨by decide, by decide⟩⟩
  by_cases h : (tweetMessage title author preprintURL).length ≤ 279
  · rw [if_pos h]
    show (if 280 ≤ (tweetMessage title author preprintURL).length then none
          else some (tweetMessage title author preprintURL)) = _
    rw [if_neg (by omega)]
  · rw [if_neg h]
    show (if 280 ≤ (tweetMessage title author preprintURL).length then none
          else some (tweetMessage title author preprintURL)) = _
    rw [if_pos (by omega)]

/-- C7: with a listing API that returns a full page of 100 items at offset 0,
a full page of 100 items at offset 100, and an empty page elsewhere, the
paginated generator yields exactly the 200 items of the two pages, requesting
offsets 0, 100, 200 (advancing by the page size between requests), and
terminates (the result is `some`, for every fuel bound of at least the three
requests actually made); and it terminates immediately, yielding a single
item, whenever the API returns a non-list (singleton) response. -/
theorem c7_pagination_termination :
    (∀ fuel, 3 ≤ fuel →
      query_generator c7Api fuel =
        (some (c7Page 0 ++ c7Page pagesize), [0, pagesize, 2 * pagesize]) ∧
      (c7Page 0 ++ c7Page pagesize).length = 200) ∧
    (∀ (x : Nat) (api : Nat → PageResp Nat), api 0 = PageResp.single x →
      ∀ fuel, 1 ≤ fuel → query_generator api fuel = (some [x], [0])) := by
  constructor
  · intro fuel hfuel
    obtain ⟨m, rfl⟩ := Nat.exists_eq_add_of_le hfuel
    rw [Nat.add_comm 3 m]
    exact ⟨rfl, by decide⟩
  · intro x api h fuel hfuel
    obtain ⟨m, rfl⟩ := Nat.exists_eq_add_of_le hfuel
    rw [Nat.add_comm 1 m]
    simp [query_generator, query_generator_aux, h]

/-- Witness for C7 at the concrete fuel bounds 3 and 1. -/
theorem c7_pagination_termination_witness :
    (query_generator c7Api 3 =
        (some (c7Page 0 ++ c7Page pagesize), [0, pagesize, 2 * pagesize]) ∧
      (c7Page 0 ++ c7Page pagesize).length = 200) ∧
    query_generator (fun _ => PageResp.single 7) 1 = (some [7], [0]) :=
  ⟨c7_pagination_termination.1 3 (by decide),
    c7_pagination_termination.2 7 (fun _ => PageResp.single 7) rfl 1 (by decide)⟩

/-- C9: in `tweet_image`, if the image download returns a non-success status
(anything other than 200), the call returns with the state unchanged: no
`update_with_media` call is recorded, and if no temporary file existed
before the call, none exists afterward. -/
theorem c9_download_failure_isolation (env : Env) (url message : String) (s : State)
    (hdl : env.download url ≠ 200) (htmp : s.tempExists = false) :
    tweet_image env url message s = Except.ok s ∧
    (resultState (tweet_image env url message s)).postCalls = s.postCalls ∧
    (resultState (tweet_image env url message s)).tempExists = false := by
  have h : tweet_image env url message s = Except.ok s := by
    simp [tweet_image, hdl]
  rw [h]
  exact ⟨rfl, rfl, htmp⟩

/-- Witness for C9: a download returning HTTP 500. -/
theorem c9_download_failure_isolation_witness :
    tweet_image c9Env "u" "m" (initState []) = Except.ok (initState []) ∧
    (resultState (tweet_image c9Env "u" "m" (initState []))).postCalls
      = (initState []).postCalls ∧
    (resultState (tweet_image c9Env "u" "m" (initState []))).tempExists = false :=
  c9_download_failure_isolation c9Env "u" "m" (initState []) (by decide) rfl

/-- C5 counterexample: when the image download succeeds (status 200) but the
posting API call raises, `tweet_image` exits by exception with temp.jpg
still on disk (`tempExists = true`): the temporary file is not deleted on
this exit path, refuting the claim that it is deleted on every exit path. -/
theorem c5_counterexample_temp_file_leaks :
    tweet_image c5Env "https://img.example/t.jpg" "msg" (initState []) =
      Except.error
        { idLogFile := [], preprints_added := 0, preprints_tweeted := 0,
          preprints_tweeted_FAILED := 0, builderCalls := [], publisherCalls := [],
          postCalls := ["msg"], announced := [], tempExists := true } ∧
    (resultState (tweet_image c5Env "https://img.example/t.jpg" "msg" (initState []))).tempExists
      = true := ⟨rfl, rfl⟩

/-- C5 amended: on the exit paths where the posting call does not raise —
post success (download, post, then `os.remove`) and download failure (no
file is ever created) — no temporary file remains; but when the posting API
call raises after a successful download, the publish step exits by
exception with the temporary file still on disk. -/
theorem c5_amended_temp_file_release (env : Env) (url message : String) (s : State)
    (htmp : s.tempExists = false) :
    ((env.postOK message = true ∨ env.download url ≠ 200) →
      (resultState (tweet_image env url message s)).tempExists = false) ∧
    (env.download url = 200 → env.postOK message = false →
      tweet_image env url message s =
          Except.error (resultState (tweet_image env url message s)) ∧
        (resultState (tweet_image env url message s)).tempExists = true) := by
  constructor
  · intro hcase
    by_cases hdl : env.download url = 200
    · rcases hcase with hpost | hdl2
      · simp [tweet_image, hdl, hpost, resultState]
      · exact absurd hdl hdl2
    · simp [tweet_image, hdl, resultState, htmp]
  · intro hdl hpost
    simp [tweet_image, hdl, hpost, resultState]

/-- Witness for C5 amended: all three paths at concrete environments. -/
theorem c5_amended_temp_file_release_witness :
    (resultState (tweet_image c5okEnv "u" "m" (initState []))).tempExists = false ∧
    (resultState (tweet_image c5failEnv "u" "m" (initState []))).tempExists = false ∧
    (tweet_image c5Env "u" "m" (initState []) =
        Except.error (resultState (tweet_image c5Env "u" "m" (initState []))) ∧
      (resultState (tweet_image c5Env "u" "m" (initState []))).tempExists = true) :=
  ⟨(c5_amended_temp_file_release c5okEnv "u" "m" (initState []) rfl).1 (Or.inl rfl),
    (c5_amended_temp_file_release c5failEnv "u" "m" (initState []) rfl).1 (Or.inr (by decide)),
    (c5_amended_temp_file_release c5Env "u" "m" (initState []) rfl).2 rfl rfl⟩

/-- C4 at its failing inputs. Scenario (a): a new preprint whose thumbnail
download fails (HTTP 404) — the run completes with
`preprints_tweeted = 1` and `preprints_tweeted_FAILED = 0` (the download
failure is counted as a successful post, not as a failure; the identifier is
appended). Scenario (b): a new preprint whose posting API call raises — the
run aborts with `Outcome.postError`, neither counter is incremented and the
identifier is NOT appended to the log, contradicting the claim that every
publish failure is counted as failed-to-post with the identifier still
logged. -/
theorem c4_publish_failure_accounting_behavior :
    run c4aEnv [] 1 =
      ({ idLogFile := ["9"], preprints_added := 1, preprints_tweeted := 1,
         preprints_tweeted_FAILED := 0, builderCalls := ["9"], publisherCalls := ["9"],
         postCalls := [], announced := ["9"], tempExists := false },
        Outcome.finished) ∧
    run c4bEnv [] 1 =
      ({ idLogFile := [], preprints_added := 0, preprints_tweeted := 0,
         preprints_tweeted_FAILED := 0, builderCalls := ["9"], publisherCalls := ["9"],
         postCalls := ["T4 by A4 & co-workers\n\nhttps://doi.org/10.4/x"],
         announced := ["9"], tempExists := true },
        Outcome.postError) :=
  ⟨rfl, rfl⟩

lemma countersOK_processItem (env : Env) (idLog0 : List String) (pid : String)
    (s s' : State) (hs : countersOK s) :
    (processItem env idLog0 pid s = Except.ok s' → countersOK s') ∧
    (∀ o, processItem env idLog0 pid s = Except.error (s', o) → countersOK s') := by
  constructor
  · intro h
    rcases processItem_ok env idLog0 pid s s' h with ⟨_, rfl⟩ | ⟨_, _, hadd, hsum, _⟩
    · exact hs
    · unfold countersOK at hs ⊢
      omega
  · intro o h
    obtain ⟨_, _, hadd, htw, hfl, _⟩ := processItem_error env idLog0 pid s s' o h
    unfold countersOK at hs ⊢
    rw [hadd, htw, hfl]
    exact hs

lemma countersOK_runLoop (env : Env) (idLog0 : List String) :
    ∀ fuel pos s, countersOK s → countersOK (runLoop env idLog0 fuel pos s).1 := by
  intro fuel
  induction fuel with
  | zero => intro pos s hs; exact hs
  | succ n ih =>
    intro pos s hs
    rw [runLoop]
    cases hstream : env.stream[pos]? with
    | none => exact hs
    | some pid =>
      cases hpi : processItem env idLog0 pid s with
      | error r =>
        simp only [hpi]
        exact (countersOK_processItem env idLog0 pid s r.1 hs).2 r.2
          (by rw [hpi])
      | ok s1 =>
        simp only [hpi]
        exact ih (pos + 1) s1 ((countersOK_processItem env idLog0 pid s s1 hs).1 hpi)

lemma callsOutsideLog_processItem (env : Env) (idLog0 : List String) (pid : String)
    (s s' : State) (hs : callsOutsideLog idLog0 s) :
    (processItem env idLog0 pid s = Except.ok s' → callsOutsideLog idLog0 s') ∧
    (∀ o, processItem env idLog0 pid s = Except.error (s', o) →
      callsOutsideLog idLog0 s') := by
  constructor
  · intro h
    rcases processItem_ok env idLog0 pid s s' h with ⟨_, rfl⟩ | ⟨hpid, _, _, _, hb, hp, _⟩
    · exact hs
    · constructor
      · rw [hb]
        intro y hy
        rcases List.mem_append.1 hy with hy | hy
        · exact hs.1 y hy
        · rw [List.mem_singleton.1 hy]
          exact hpid
      · rcases hp with hp | hp
        · rw [hp]; exact hs.2
        · rw [hp]
          intro y hy
          rcases List.mem_append.1 hy with hy | hy
          · exact hs.2 y hy
          · rw [List.mem_singleton.1 hy]
            exact hpid
  · intro o h
    obtain ⟨hpid, _, _, _, _, hb, hp⟩ := processItem_error env idLog0 pid s s' o h
    constructor
    · rcases hb with hb | hb
      · rw [hb]; exact hs.1
      · rw [hb]
        intro y hy
        rcases List.mem_append.1 hy with hy | hy
        · exact hs.1 y hy
        · rw [List.mem_singleton.1 hy]
          exact hpid
    · rcases hp with hp | hp
      · rw [hp]; exact hs.2
      · rw [hp]
        intro y hy
        rcases List.mem_append.1 hy with hy | hy
        · exact hs.2 y hy
        · rw [List.mem_singleton.1 hy]
          exact hpid

lemma callsOutsideLog_runLoop (env : Env) (idLog0 : List String) :
    ∀ fuel pos s, callsOutsideLog idLog0 s →
      callsOutsideLog idLog0 (runLoop env idLog0 fuel pos s).1 := by
  intro fuel
  induction fuel with
  | zero => intro pos s hs; exact hs
  | succ n ih =>
    intro pos s hs
    rw [runLoop]
    cases hstream : env.stream[pos]? with
    | none => exact hs
    | some pid =>
      cases hpi : processItem env idLog0 pid s with
      | error r =>
        simp only [hpi]
        exact (callsOutsideLog_processItem env idLog0 pid s r.1 hs).2 r.2 (by rw [hpi])
      | ok s1 =>
        simp only [hpi]
        exact ih (pos + 1) s1 ((callsOutsideLog_processItem env idLog0 pid s s1 hs).1 hpi)

/-- C8: for every environment, startup log and loop bound — that is, for any
run that gets past startup — the final state of the run (whether the loop
exits normally or the run aborts on an uncaught exception) satisfies
`preprints_added = preprints_tweeted + preprints_tweeted_FAILED`. Because the
run is deterministic, the state after any number `B` of processed summaries
is itself the final state of the run with bound `B`, so this also covers
every intermediate point after an item finishes processing. -/
theorem c8_counter_consistency (env : Env) (idLog0 : List String) (B : Nat) :
    (run env idLog0 B).1.preprints_added =
      (run env idLog0 B).1.preprints_tweeted +
        (run env idLog0 B).1.preprints_tweeted_FAILED :=
  countersOK_runLoop env idLog0 B 0 (initState idLog0) rfl

/-- C2: for every identifier `x` present in the identifier log loaded at run
start, the run (any environment, any loop bound) never invokes the Message
Builder (`prepare_tweet`) and never invokes the Post Publisher
(`tweet_image`) for `x`. -/
theorem c2_idempotency (env : Env) (idLog0 : List String) (B : Nat) (x : String)
    (hx : x ∈ idLog0) :
    x ∉ (run env idLog0 B).1.builderCalls ∧
      x ∉ (run env idLog0 B).1.publisherCalls := by
  have hinit : callsOutsideLog idLog0 (initState idLog0) := by
    constructor
    · intro y hy
      simp [initState] at hy
    · intro y hy
      simp [initState] at hy
  have h := callsOutsideLog_runLoop env idLog0 B 0 (initState idLog0) hinit
  exact ⟨fun hmem => h.1 x hmem hx, fun hmem => h.2 x hmem hx⟩

/-- Witness for C2: identifier "1" is in the startup log of a concrete run
that processes "1" (skipped) and "2" (posted). -/
theorem c2_idempotency_witness :
    "1" ∉ (run c2Env ["1"] 2).1.builderCalls ∧
      "1" ∉ (run c2Env ["1"] 2).1.publisherCalls :=
  c2_idempotency c2Env ["1"] 2 "1" (by decide)

/-- C3: whenever the processing of a summary whose identifier is absent from
the startup log completes (returns to the loop without an uncaught
exception) — whether the post succeeded, the post attempt failed, or the
message was skipped as too long — the identifier has been appended to the
persisted log exactly once: the log file equals the old file plus one
trailing copy of the identifier, so its occurrence count goes up by one. -/
theorem c3_append_once (env : Env) (idLog0 : List String) (pid : String)
    (s s' : State) (hnew : pid ∉ idLog0)
    (h : processItem env idLog0 pid s = Except.ok s') :
    s'.idLogFile = s.idLogFile ++ [pid] ∧
      s'.idLogFile.count pid = s.idLogFile.count pid + 1 := by
  rcases processItem_ok env idLog0 pid s s' h with ⟨hmem, _⟩ | ⟨_, hfile, _⟩
  · exact absurd hmem hnew
  · refine ⟨hfile, ?_⟩
    rw [hfile, List.count_append]
    simp

/-- Witness for C3: a new identifier "7" processed from the initial state. -/
theorem c3_append_once_witness :
    c3Result.idLogFile = (initState []).idLogFile ++ ["7"] ∧
      c3Result.idLogFile.count "7" = (initState []).idLogFile.count "7" + 1 :=
  c3_append_once c3Env [] "7" (initState []) c3Result (by decide) rfl

/-- C1 at its failing input: in the end-to-end scenario (log `{"1","2"}`,
summaries "1","2","3", detail for "3" as specified, publisher succeeds), for
every loop bound greater than 3 — and `numberPreprints = sys.getsizeof(doc)`
is the byte size of a generator object, at least 16 in CPython, so always
greater than 3 here — the run reaches exactly the claimed counters
(discovered 1, posted 1, failed 0) and log `["1","2","3"]`, but then the
next `next(doc)` raises `StopIteration`, so the run terminates abnormally
(`Outcome.stopIteration`), never reaching the final summary line. -/
theorem c1_end_to_end_run_crashes (B : Nat) (hB : 4 ≤ B) :
    run c1Env c1Log B = (c1Final, Outcome.stopIteration) := by
  obtain ⟨m, rfl⟩ := Nat.exists_eq_add_of_le hB
  rw [Nat.add_comm 4 m]
  rfl

/-- Witness for C1 at the loop bound 112 (the typical CPython byte size of a
generator object). -/
theorem c1_end_to_end_run_crashes_witness :
    run c1Env c1Log 112 = (c1Final, Outcome.stopIteration) :=
  c1_end_to_end_run_crashes 112 (by decide)

lemma processItem_benignFor (env : Env) (idLog0 : List String) (pid : String)
    (s : State) (hb : benignFor env pid) (hmem : pid ∉ idLog0) :
    processItem env idLog0 pid s
        = Except.ok (processedState (processItem env idLog0 pid s)) ∧
      (processedState (processItem env idLog0 pid s)).announced
        = s.announced ++ [pid] ∧
      (processedState (processItem env idLog0 pid s)).idLogFile
        = s.idLogFile ++ [pid] := by
  obtain ⟨d, la, msg, hd, hla, hmsg, hdl, hpost⟩ := hb
  simp [processItem, hmem, hd, hla, hmsg, tweet_image, hdl, hpost, processedState]

lemma runLoop_benign (env : Env) (hb : benign env) (idLog0 : List String) :
    ∀ fuel pos s,
      (runLoop env idLog0 fuel pos s).1.announced =
        s.announced ++
          ((env.stream.drop pos).take fuel).filter (fun pid => decide (pid ∉ idLog0)) ∧
      (runLoop env idLog0 fuel pos s).1.idLogFile =
        s.idLogFile ++
          ((env.stream.drop pos).take fuel).filter (fun pid => decide (pid ∉ idLog0)) := by
  intro fuel
  induction fuel with
  | zero =>
    intro pos s
    simp [runLoop]
  | succ n ih =>
    intro pos s
    rw [runLoop]
    cases hstream : env.stream[pos]? with
    | none =>
      have hlen : env.stream.length ≤ pos := by
        exact List.getElem?_eq_none_iff.1 hstream
      have hdrop : env.stream.drop pos = [] := List.drop_eq_nil_of_le hlen
      simp [hdrop]
    | some pid =>
      have hlt : pos < env.stream.length := by
        by_contra hcon
        rw [List.getElem?_eq_none_iff.2 (by omega)] at hstream
        cases hstream
      have hget : env.stream[pos] = pid := by
        have := List.getElem?_eq_getElem hlt
        rw [hstream] at this
        exact (Option.some.inj this).symm
      have hdrop : env.stream.drop pos = pid :: env.stream.drop (pos + 1) := by
        rw [List.drop_eq_getElem_cons hlt, hget]
      by_cases hmem : pid ∈ idLog0
      · have hstep : processItem env idLog0 pid s = Except.ok s := by
          simp [processItem, hmem]
        simp only [hstep]
        rw [hdrop]
        have hfilter :
            ((pid :: env.stream.drop (pos + 1)).take (n + 1)).filter
                (fun q => decide (q ∉ idLog0)) =
              ((env.stream.drop (pos + 1)).take n).filter
                (fun q => decide (q ∉ idLog0)) := by
          rw [List.take_succ_cons, List.filter_cons]
          simp [hmem]
        rw [hfilter]
        exact ih (pos + 1) s
      · obtain ⟨hstep, hann, hfile⟩ :=
          processItem_benignFor env idLog0 pid s (hb pid) hmem
        cases hpi : processItem env idLog0 pid s with
        | error r =>
          rw [hpi] at hstep
          exact Except.noConfusion hstep
        | ok s1 =>
          rw [hpi] at hann hfile
          simp only [processedState] at hann hfile
          simp only [hpi]
          rw [hdrop]
          have hfilter :
              ((pid :: env.stream.drop (pos + 1)).take (n + 1)).filter
                  (fun q => decide (q ∉ idLog0)) =
                pid :: ((env.stream.drop (pos + 1)).take n).filter
                  (fun q => decide (q ∉ idLog0)) := by
            rw [List.take_succ_cons, List.filter_cons]
            simp [hmem]
          rw [hfilter]
          have h2 := ih (pos + 1) s1
          rw [h2.1, h2.2, hann, hfile]
          constructor
          · rw [List.append_assoc]
            simp
          · rw [List.append_assoc]
            simp

/-- C10: the loop tests membership only against the startup snapshot of the
identifier log (the embedding passes `idLog0` unchanged to every iteration,
as the source never mutates `id_log` in memory), so over any run in a benign
environment the sequence of announced identifiers and the sequence of
identifiers appended to the persisted log both equal the consumed prefix of
the summary stream filtered by absence from the startup log — in particular,
an identifier occurring twice in the stream and absent at startup is
announced and appended once per occurrence. -/
theorem c10_no_intra_run_dedup (env : Env) (hb : benign env)
    (idLog0 : List String) (B : Nat) :
    (run env idLog0 B).1.announced =
      (env.stream.take B).filter (fun pid => decide (pid ∉ idLog0)) ∧
    (run env idLog0 B).1.idLogFile =
      idLog0 ++ (env.stream.take B).filter (fun pid => decide (pid ∉ idLog0)) := by
  have h := runLoop_benign env hb idLog0 B 0 (initState idLog0)
  simpa [run, initState] using h

/-- Witness for C10: identifier "5" occurs twice in one run's stream with an
empty startup log; it is announced twice and appended to the log twice. -/
theorem c10_no_intra_run_dedup_witness :
    (run c10Env [] 2).1.announced = ["5", "5"] ∧
      (run c10Env [] 2).1.idLogFile = ["5", "5"] := by
  have hben : benign c10Env := fun pid =>
    ⟨c10Detail, { full_name := "Bar" },
      "Foo by Bar & co-workers\n\nhttps://doi.org/10.10/x",
      rfl, rfl, by decide, rfl, rfl⟩
  have h := c10_no_intra_run_dedup c10Env hben [] 2
  simpa using h

end CRXBot
